import Mathlib

/-
  Shallow embedding of the IoT-Ecosystem repository's real-time
  ingestion / classification / fanout pipeline.

  Sources embedded:
  * cloud-backend/app/services/mqtt_client.py  (_on_message, _handle_sensor_data,
    _store_sensor_reading, latest_readings cache, _notify_websocket_clients)
  * cloud-backend/app/api/v1/sensors.py        (get_sensor_history)
  * cloud-backend/app/main.py                  (ConnectionManager, websocket_endpoint)
  * edge/sensors/temp_sensor.py                (detect_anomaly)

  Machine floats are modelled as rationals (only order comparisons and
  subtraction occur in the embedded code).  Python exceptions are modelled
  with Except; a `try/except` boundary turns an error result back into a
  normal one.  The Python standard-library functions `float(str)` and
  `datetime.fromisoformat` and the clock `datetime.utcnow` are abstracted
  as parameters of a `PyEnv` record.
-/

namespace IoT

/-- A decoded JSON scalar value, as produced by `json.loads`.  Nested
containers are not modelled: the embedded handlers only copy them verbatim
and never inspect them. -/
inductive JVal where
  | jstr (s : String)
  | jnum (q : ℚ)
  | jbool (b : Bool)
  | jnull
deriving DecidableEq, Repr

/-- Python truthiness of a `JVal` (`if timestamp_str:` in the source). -/
def JVal.truthy : JVal → Bool
  | .jstr s => !s.data.isEmpty
  | .jnum q => if q = 0 then false else true
  | .jbool b => b
  | .jnull => false

/-- The Python exceptions that can arise inside the embedded pipeline. -/
inductive PyErr where
  | unicodeErr
  | typeErr
  | attributeErr
  | valueErr
deriving DecidableEq, Repr

/-- Outcome of `json.loads` on the decoded payload text.
`nonObjSeq` stands for a JSON array or string result (the `'value' not in data`
membership test evaluates without raising and the reading is dropped);
`nonObjScalar` stands for a JSON number, boolean or null result (the
membership test raises `TypeError`). -/
inductive Payload where
  | badJson
  | nonObjSeq
  | nonObjScalar
  | obj (fields : List (String × JVal))
deriving DecidableEq, Repr

/-- Ambient Python-runtime facts abstracted out of the embedding:
`pyFloatStr s` is the result of `float(s)` on a string (`none` models a
`ValueError`), `fromIso s` is `datetime.fromisoformat s` (`none` models a
`ValueError`), and `now` is `datetime.utcnow()`. -/
structure PyEnv where
  pyFloatStr : String → Option ℚ
  fromIso : String → Option ℚ
  now : ℚ

/-- Association-list lookup for a Python `dict.get(k)`. -/
def alistGet? {α : Type} : List (String × α) → String → Option α
  | [], _ => none
  | (k', v) :: rest, k => if k' = k then some v else alistGet? rest k

/-- `dict.get(k, d)` with a default. -/
def jgetD (fields : List (String × JVal)) (k : String) (d : JVal) : JVal :=
  (alistGet? fields k).getD d

/-- Python `dict` assignment `m[k] = v`: overwrite in place when the key is
present, append otherwise (insertion order preserved, as in CPython). -/
def alistPut {α : Type} : List (String × α) → String → α → List (String × α)
  | [], k, v => [(k, v)]
  | (k', v') :: rest, k, v =>
      if k' = k then (k, v) :: rest else (k', v') :: alistPut rest k v

/-- The `reading_data` dict built in `_handle_sensor_data` (mqtt_client.py
lines 110-120).  The `raw_data` copy of the undecoded payload text is elided. -/
structure ReadingData where
  timestamp : ℚ
  sensor_type : JVal
  sensor_id : JVal
  value : ℚ
  unit : JVal
  origin : JVal
  source_protocol : JVal
  anomaly : JVal
deriving DecidableEq, Repr

/-- `timestamp_str = data.get('ts', data.get('timestamp'))`; an absent key
behaves like Python `None`, modelled as `jnull`. -/
def tsField (fields : List (String × JVal)) : JVal :=
  match alistGet? fields "ts" with
  | some v => v
  | none => (alistGet? fields "timestamp").getD .jnull

/-- `timestamp_str[:-1]` applied when `timestamp_str.endswith('Z')`
(character-list implementation, since `String.endsWith` is opaque to the
kernel). -/
def stripZ (s : String) : String :=
  match s.data.getLast? with
  | some 'Z' => String.mk s.data.dropLast
  | _ => s

/-- The timestamp extraction of `_handle_sensor_data` (lines 96-107).
Only `ValueError` is caught there, so calling `.endswith` on a truthy
non-string raises `AttributeError` out of this block. -/
def parseTimestamp (env : PyEnv) (fields : List (String × JVal)) : Except PyErr ℚ :=
  let tsv := tsField fields
  if tsv.truthy then
    match tsv with
    | .jstr s =>
        match env.fromIso (stripZ s) with
        | some t => .ok t
        | none => .ok env.now
    | _ => .error .attributeErr
  else
    .ok env.now

/-- Python `float(x)` on a decoded JSON value. -/
def pyFloat (env : PyEnv) : JVal → Except PyErr ℚ
  | .jnum q => .ok q
  | .jbool b => .ok (if b then 1 else 0)
  | .jstr s =>
      match env.pyFloatStr s with
      | some q => .ok q
      | none => .error .valueErr
  | .jnull => .error .typeErr

/-- Worker for `topicParts`: split a character list on `'/'`,
accumulating the current segment in reverse. -/
def splitSlashAux : List Char → List Char → List String
  | [], acc => [String.mk acc.reverse]
  | c :: cs, acc =>
      if c = '/' then String.mk acc.reverse :: splitSlashAux cs []
      else splitSlashAux cs (c :: acc)

/-- `topic.split('/')` (character-list implementation, same segment
semantics as Python `str.split('/')`). -/
def topicParts (topic : String) : List String :=
  splitSlashAux topic.data []

/-- `s.startswith(p)` (character-list implementation). -/
def strStartsWith (s p : String) : Bool :=
  p.data.isPrefixOf s.data

/-- A message handed to `_notify_websocket_clients`. -/
inductive BroadcastEvent where
  | sensorData (rd : ReadingData)
  | systemStatus (topic : String)
deriving DecidableEq, Repr

/-- The mutable state touched by the ingestion pipeline: the
`latest_readings` cache, the rows inserted by `_store_sensor_reading`
(insertion order), and the events handed to `_notify_websocket_clients`. -/
structure IngestState where
  latest : List (String × ReadingData)
  stored : List ReadingData
  broadcasts : List BroadcastEvent
deriving DecidableEq, Repr

/-- The `reading_data` dict construction (mqtt_client.py lines 110-120),
after the timestamp and the float conversion of `value` have succeeded. -/
def mkReadingData (topicType topicId : String) (fields : List (String × JVal))
    (ts q : ℚ) : ReadingData :=
  { timestamp := ts
    sensor_type := jgetD fields "type" (.jstr topicType)
    sensor_id := jgetD fields "sensor_id" (.jstr topicId)
    value := q
    unit := jgetD fields "unit" (.jstr "")
    origin := jgetD fields "origin" (.jstr "unknown")
    source_protocol := jgetD fields "source_protocol" (.jstr "mqtt")
    anomaly := jgetD fields "anomaly" (.jbool false) }

/-- The body of the `try` block of `_handle_sensor_data` (lines 74-139).
An `.ok` result is the state after the early `return`s or after the
store / cache / broadcast steps; an `.error` is an exception escaping to the
`except` on line 141.  Every raising point precedes every mutation, so an
error carries no partial state.  `_store_sensor_reading` and
`_notify_websocket_clients` catch internally and never raise. -/
def handleSensorDataExc (env : PyEnv) (topic : String) (payload : Payload)
    (s : IngestState) : Except PyErr IngestState :=
  match topicParts topic with
  | _ :: sensorType :: sensorId :: _ =>
      match payload with
      | .badJson => .ok s
      | .nonObjSeq => .ok s
      | .nonObjScalar => .error .typeErr
      | .obj fields =>
          match alistGet? fields "value" with
          | none => .ok s
          | some v =>
              match parseTimestamp env fields with
              | .error e => .error e
              | .ok ts =>
                  match pyFloat env v with
                  | .error e => .error e
                  | .ok q =>
                      let rd := mkReadingData sensorType sensorId fields ts q
                      .ok { latest := alistPut s.latest (sensorType ++ "_" ++ sensorId) rd
                            stored := s.stored ++ [rd]
                            broadcasts := s.broadcasts ++ [.sensorData rd] }
  | _ => .ok s

/-- `_handle_sensor_data` with its own `try/except Exception` (line 141):
a caught exception leaves the state unchanged. -/
def handleSensorData (env : PyEnv) (topic : String) (payload : Payload)
    (s : IngestState) : IngestState :=
  match handleSensorDataExc env topic payload s with
  | .ok s' => s'
  | .error _ => s

/-- The raw transport message payload as seen by `_on_message`:
either bytes that fail UTF-8 decoding, or the `json.loads` outcome of the
decoded text. -/
inductive RawPayload where
  | badUtf8
  | utf8 (p : Payload)
deriving DecidableEq, Repr

/-- The body of the `try` block of `_on_message` (lines 57-68): UTF-8
decode, then routing by topic prefix.  `nodered/` topics broadcast a
`system_status` event; other non-sensor topics are ignored. -/
def onMessageBody (env : PyEnv) (topic : String) (raw : RawPayload)
    (s : IngestState) : Except PyErr IngestState :=
  match raw with
  | .badUtf8 => .error .unicodeErr
  | .utf8 p =>
      if strStartsWith topic "sensors/" then
        .ok (handleSensorData env topic p s)
      else if strStartsWith topic "nodered/" then
        .ok { s with broadcasts := s.broadcasts ++ [.systemStatus topic] }
      else
        .ok s

/-- `_on_message` with its `try/except Exception` (line 69): the transport
callback always returns normally; a caught exception leaves the state
unchanged. -/
def onMessage (env : PyEnv) (topic : String) (raw : RawPayload)
    (s : IngestState) : IngestState :=
  match onMessageBody env topic raw s with
  | .ok s' => s'
  | .error _ => s

/-- The same pipeline with every `try/except` of `_on_message` and
`_handle_sensor_data` removed: the exceptions that would propagate into the
transport callback if the code did not catch them. -/
def pipelineExc (env : PyEnv) (topic : String) (raw : RawPayload)
    (s : IngestState) : Except PyErr IngestState :=
  match raw with
  | .badUtf8 => .error .unicodeErr
  | .utf8 p =>
      if strStartsWith topic "sensors/" then
        handleSensorDataExc env topic p s
      else if strStartsWith topic "nodered/" then
        .ok { s with broadcasts := s.broadcasts ++ [.systemStatus topic] }
      else
        .ok s

/-! ## Edge anomaly classifier (edge/sensors/temp_sensor.py) -/

/-- The per-type classification thresholds held by a sensor instance
(`min_temp`, `max_temp`, `jump_threshold` in temp_sensor.py lines 29-31). -/
structure SensorPolicy where
  min_temp : ℚ
  max_temp : ℚ
  jump_threshold : ℚ

/-- Python `abs` on a number, written out so that it evaluates by kernel
reduction (it agrees with Mathlib's `|·|`, see `pyAbs_eq_abs`). -/
def pyAbs (q : ℚ) : ℚ :=
  if q < 0 then -q else q

/-- `TemperatureSensor.detect_anomaly` (temp_sensor.py lines 55-71):
range check against the inclusive bounds, then jump check against the
previous value when one exists. -/
def detect_anomaly (p : SensorPolicy) (last_value : Option ℚ) (value : ℚ) : Bool :=
  let anomaly := false
  let anomaly := if value < p.min_temp ∨ value > p.max_temp then true else anomaly
  let anomaly :=
    match last_value with
    | some lv => if pyAbs (value - lv) > p.jump_threshold then true else anomaly
    | none => anomaly
  anomaly

/-! ## History store -/

/-- Modelled from the spec: the in-memory bounded history store
(`app.api.v1.sensors.sensor_readings` with the eviction performed by
`add_sensor_reading`) is referenced by `app/main.py` and
`tests/test_backend.py` but its module is not in the source tree; spec §3
fixes a capacity (default 10,000) with size never exceeding it, and
spec §9 describes the overflow policy as dropping the oldest half on
exceeding the high-water mark: when an append pushes the size past `cap`,
only the newest `cap / 2` readings are kept. -/
def historyAppend {α : Type} (cap : ℕ) (h : List α) (r : α) : List α :=
  let h2 := h ++ [r]
  if cap < h2.length then h2.drop (h2.length - cap / 2) else h2

/-- Insertion step for the newest-first ordering of query results. -/
def historyInsertDesc (x : ReadingData) : List ReadingData → List ReadingData
  | [] => [x]
  | y :: ys =>
      if y.timestamp ≤ x.timestamp then x :: y :: ys else y :: historyInsertDesc x ys

/-- `ORDER BY timestamp DESC` on the matching rows. -/
def sortByTimeDesc : List ReadingData → List ReadingData
  | [] => []
  | x :: xs => historyInsertDesc x (sortByTimeDesc xs)

/-- The `/history` endpoint `get_sensor_history` (sensors.py lines 67-99):
filter the stored rows by sensor id and time range, order newest first,
truncate to `limit`, and raise `HTTPException(404)` when nothing matched.
The `Except` error value is the HTTP status code raised; `startT`/`endT`
are the computed time range (`utcnow - hours`, `utcnow`). -/
def get_sensor_history (store : List ReadingData) (sid : String) (lim : ℕ)
    (startT endT : ℚ) : Except ℕ (List ReadingData) :=
  let matching := store.filter fun r =>
    r.sensor_id = .jstr sid ∧ startT ≤ r.timestamp ∧ r.timestamp ≤ endT
  let readings := (sortByTimeDesc matching).take lim
  if readings.isEmpty then .error 404 else .ok readings

/-! ## Broadcast manager (app/main.py, ConnectionManager) -/

/-- `ConnectionManager.disconnect` (main.py lines 108-112): remove the
connection from the live list when present (Python `list.remove` deletes
the first occurrence). -/
def cmDisconnect {α : Type} [DecidableEq α] (active : List α) (c : α) : List α :=
  if c ∈ active then active.erase c else active

/-- `ConnectionManager.broadcast` (main.py lines 121-132): attempt a send
to every currently registered connection in order, collect the ones whose
send raised (`sendOk c = false`), then disconnect each of those.  Returns
the list of connections a delivery was attempted to, and the live list
afterwards. -/
def cmBroadcast {α : Type} [DecidableEq α] (sendOk : α → Bool)
    (active : List α) : List α × List α :=
  let disconnected := active.filter fun c => !(sendOk c)
  (active, disconnected.foldl cmDisconnect active)

/-! ## Subscriber channel protocol (app/main.py, websocket_endpoint) -/

/-- Outcome of one loop iteration of `websocket_endpoint` (main.py lines
274-292) on a received text frame: the types of the reply messages sent
back (reply payload bodies elided), or an uncaught exception tearing the
connection down. -/
inductive WsOutcome where
  | replies (msgs : List String)
  | crash
deriving DecidableEq, Repr

/-- The handling of one client text frame: `json.loads`, then the
`ping` / `get_latest` dispatch; only `json.JSONDecodeError` is caught, so
`message.get` on a non-dict parse result raises `AttributeError` out of
the endpoint. -/
def handleClientText (p : Payload) : WsOutcome :=
  match p with
  | .badJson => .replies ["error"]
  | .nonObjSeq => .crash
  | .nonObjScalar => .crash
  | .obj fields =>
      let t := alistGet? fields "type"
      if t = some (.jstr "ping") then .replies ["pong"]
      else if t = some (.jstr "get_latest") then .replies ["latest_data"]
      else .replies []

/-! ## Concrete fixtures for closed evaluations -/

/-- A runtime environment in which `float()` on a string and
`fromisoformat` always fail and the clock reads 0. -/
def envNone : PyEnv := ⟨fun _ => none, fun _ => none, 0⟩

/-- A runtime environment whose `fromisoformat` parses exactly the string
"2024" (to the instant 7) and whose clock reads 99. -/
def envIso : PyEnv := ⟨fun _ => none, fun str => if str = "2024" then some 7 else none, 99⟩

/-- The empty ingestion state. -/
def emptyIngest : IngestState := ⟨[], [], []⟩

/-! ## Helper lemmas -/

theorem pyAbs_eq_abs (q : ℚ) : pyAbs q = |q| := by
  unfold pyAbs
  rcases lt_or_le q 0 with h | h
  · rw [if_pos h, abs_of_neg h]
  · rw [if_neg (not_lt.mpr h), abs_of_nonneg h]

theorem alistGet?_alistPut_self {α : Type} (m : List (String × α)) (k : String) (v : α) :
    alistGet? (alistPut m k v) k = some v := by
  induction m with
  | nil => simp [alistGet?, alistPut]
  | cons kv rest ih =>
      obtain ⟨k', v'⟩ := kv
      by_cases h : k' = k
      · simp [alistPut, alistGet?, h]
      · simp [alistPut, alistGet?, h, ih]

theorem historyAppend_length_le {α : Type} (cap : ℕ) (h : List α) (r : α) :
    (historyAppend cap h r).length ≤ cap := by
  unfold historyAppend
  by_cases hc : cap < (h ++ [r]).length
  · rw [if_pos hc, List.length_drop]
    have h2 : cap / 2 ≤ cap := Nat.div_le_self _ _
    omega
  · rw [if_neg hc]
    omega

theorem historyAppend_suffix {α : Type} (cap : ℕ) (h : List α) (r : α) :
    historyAppend cap h r <:+ h ++ [r] := by
  unfold historyAppend
  by_cases hc : cap < (h ++ [r]).length
  · rw [if_pos hc]
    exact List.drop_suffix _ _
  · rw [if_neg hc]

theorem historyFold_suffix {α : Type} (cap : ℕ) (h : List α) (rs : List α) :
    rs.foldl (historyAppend cap) h <:+ h ++ rs := by
  induction rs generalizing h with
  | nil => simp
  | cons r rs ih =>
      have h1 : rs.foldl (historyAppend cap) (historyAppend cap h r) <:+
          historyAppend cap h r ++ rs := ih _
      obtain ⟨t, ht⟩ := historyAppend_suffix cap h r
      have h3 : historyAppend cap h r ++ rs <:+ (h ++ [r]) ++ rs :=
        ⟨t, by rw [← List.append_assoc, ht]⟩
      have h4 := h1.trans h3
      simpa using h4

theorem historyFold_length_le {α : Type} (cap : ℕ) (h : List α) (rs : List α)
    (hh : h.length ≤ cap) : (rs.foldl (historyAppend cap) h).length ≤ cap := by
  induction rs generalizing h with
  | nil => simpa
  | cons r rs ih => exact ih _ (historyAppend_length_le cap h r)

theorem filter_eq_singleton {α : Type} [DecidableEq α] (l : List α) (k : α) (p : α → Bool)
    (hnd : l.Nodup) (hk : k ∈ l) (hpk : p k = true)
    (hothers : ∀ c ∈ l, c ≠ k → p c = false) :
    l.filter p = [k] := by
  induction l with
  | nil => cases hk
  | cons a l ih =>
      have hnd' := List.nodup_cons.mp hnd
      rcases List.mem_cons.mp hk with heq | hk'
      · rw [List.filter_cons_of_pos (by simp [← heq, hpk])]
        have hrest : l.filter p = [] := by
          rw [List.filter_eq_nil_iff]
          intro c hc
          have hck : c ≠ k := by
            intro h
            exact hnd'.1 (by rw [heq] at h; exact h ▸ hc)
          simp [hothers c (List.mem_cons_of_mem a hc) hck]
        rw [hrest, ← heq]
      · have hak : a ≠ k := by
          intro h
          exact hnd'.1 (by rw [h]; exact hk')
        have hpa : p a = false := hothers a (List.mem_cons_self a l) hak
        rw [List.filter_cons_of_neg (by simp [hpa])]
        exact ih hnd'.2 hk' fun c hc hck => hothers c (List.mem_cons_of_mem a hc) hck

theorem handleSensorData_accepts (env : PyEnv) (topic t0 t1 t2 : String)
    (rest : List String) (fields : List (String × JVal)) (v : JVal) (ts q : ℚ)
    (s : IngestState)
    (hparts : topicParts topic = t0 :: t1 :: t2 :: rest)
    (hv : alistGet? fields "value" = some v)
    (hts : parseTimestamp env fields = .ok ts)
    (hq : pyFloat env v = .ok q) :
    handleSensorData env topic (.obj fields) s =
      { latest := alistPut s.latest (t1 ++ "_" ++ t2) (mkReadingData t1 t2 fields ts q)
        stored := s.stored ++ [mkReadingData t1 t2 fields ts q]
        broadcasts := s.broadcasts ++ [.sensorData (mkReadingData t1 t2 fields ts q)] } := by
  unfold handleSensorData handleSensorDataExc
  rw [hparts]
  simp only [hv, hts, hq]

theorem handleSensorData_drop_of_error (env : PyEnv) (topic : String)
    (fields : List (String × JVal)) (s : IngestState) (v : JVal) (e : PyErr)
    (hv : alistGet? fields "value" = some v)
    (hts : parseTimestamp env fields = .error e) :
    handleSensorData env topic (.obj fields) s = s := by
  unfold handleSensorData handleSensorDataExc
  rcases topicParts topic with _ | ⟨a, _ | ⟨b, _ | ⟨c, r⟩⟩⟩ <;>
    simp [hv, hts]

/-! ## Claim theorems -/

/-- Claim C2: the classifier returns `anomaly = true` iff the value is
strictly below `min` or strictly above `max`, or a previous value exists
and the absolute jump strictly exceeds `jump_threshold`; hence boundary
values at `min`/`max` and a jump exactly equal to the threshold are not
anomalous, and with no previous value the jump check is skipped. -/
theorem detect_anomaly_iff (p : SensorPolicy) (last_value : Option ℚ) (value : ℚ) :
    detect_anomaly p last_value value = true ↔
      ((value < p.min_temp ∨ value > p.max_temp) ∨
        ∃ prev, last_value = some prev ∧ |value - prev| > p.jump_threshold) := by
  cases last_value with
  | none =>
      by_cases hr : value < p.min_temp ∨ value > p.max_temp <;>
        simp [detect_anomaly, hr]
  | some lv =>
      by_cases hr : value < p.min_temp ∨ value > p.max_temp <;>
        by_cases hj : pyAbs (value - lv) > p.jump_threshold <;>
          simp [detect_anomaly, hr, hj, ← pyAbs_eq_abs]

/-- Claim C3: after any sequence of appends to the (spec-modelled) history
store starting empty, at most the configured capacity (default 10,000)
readings are retained, and the retained readings are a suffix of the
append sequence, i.e. the most recent capacity-or-fewer ones. -/
theorem history_capacity_invariant {α : Type} (rs : List α) :
    (rs.foldl (historyAppend 10000) []).length ≤ 10000 ∧
      (rs.foldl (historyAppend 10000) []) <:+ rs := by
  constructor
  · exact historyFold_length_le 10000 [] rs (by simp)
  · simpa using historyFold_suffix 10000 [] rs

/-- Claim C4 (code bug): `get_sensor_history` does not return an empty
sequence when no stored reading matches the filter; it raises
`HTTPException(404)`.  Evaluation at the failing input: the empty store
with any sensor id and time range. -/
theorem history_query_no_match_raises_404 :
    get_sensor_history [] "temp_001" 100 0 24 = .error 404 := rfl

/-- Claim C1 counterexample: two messages on the same topic whose payloads
are identical except for the sender-supplied `anomaly` field receive
different anomaly verdicts in the stored reading — the verdict is the
sender's flag, not a classifier output. -/
theorem sender_anomaly_flag_changes_verdict :
    ((onMessage envNone "sensors/temperature/t1"
        (.utf8 (.obj [("value", .jnum 20), ("anomaly", .jbool false)]))
        emptyIngest).stored.map (·.anomaly) = [.jbool false]) ∧
    ((onMessage envNone "sensors/temperature/t1"
        (.utf8 (.obj [("value", .jnum 20), ("anomaly", .jbool true)]))
        emptyIngest).stored.map (·.anomaly) = [.jbool true]) :=
  ⟨rfl, rfl⟩

/-- Claim C1 (amended): for every accepted message, the anomaly verdict in
the stored, cached, and broadcast copies of the reading is the one value
`data.get('anomaly', False)` — copied verbatim from the sender's payload,
defaulting to false when absent; ingestion runs no classifier, so messages
identical except for the `anomaly` field receive their respective
sender-supplied verdicts. -/
theorem ingest_anomaly_copied_from_sender (env : PyEnv) (topic t0 t1 t2 : String)
    (rest : List String) (fields : List (String × JVal)) (v : JVal) (ts q : ℚ)
    (s : IngestState)
    (hparts : topicParts topic = t0 :: t1 :: t2 :: rest)
    (hv : alistGet? fields "value" = some v)
    (hts : parseTimestamp env fields = .ok ts)
    (hq : pyFloat env v = .ok q) :
    ∃ rd : ReadingData,
      (handleSensorData env topic (.obj fields) s).stored = s.stored ++ [rd] ∧
      (handleSensorData env topic (.obj fields) s).broadcasts =
        s.broadcasts ++ [.sensorData rd] ∧
      alistGet? (handleSensorData env topic (.obj fields) s).latest
        (t1 ++ "_" ++ t2) = some rd ∧
      rd.anomaly = jgetD fields "anomaly" (.jbool false) := by
  refine ⟨mkReadingData t1 t2 fields ts q, ?_, ?_, ?_, rfl⟩ <;>
    rw [handleSensorData_accepts env topic t0 t1 t2 rest fields v ts q s hparts hv hts hq]
  exact alistGet?_alistPut_self s.latest _ _

/-- Witness for `ingest_anomaly_copied_from_sender` at a concrete message
whose payload asserts `anomaly: true`. -/
theorem ingest_anomaly_copied_from_sender_witness :
    ∃ rd : ReadingData,
      (handleSensorData envNone "sensors/temperature/t1"
        (.obj [("value", .jnum 20), ("anomaly", .jbool true)]) emptyIngest).stored =
        emptyIngest.stored ++ [rd] ∧
      (handleSensorData envNone "sensors/temperature/t1"
        (.obj [("value", .jnum 20), ("anomaly", .jbool true)]) emptyIngest).broadcasts =
        emptyIngest.broadcasts ++ [.sensorData rd] ∧
      alistGet? (handleSensorData envNone "sensors/temperature/t1"
        (.obj [("value", .jnum 20), ("anomaly", .jbool true)]) emptyIngest).latest
        ("temperature" ++ "_" ++ "t1") = some rd ∧
      rd.anomaly = jgetD [("value", .jnum 20), ("anomaly", .jbool true)]
        "anomaly" (.jbool false) :=
  ingest_anomaly_copied_from_sender envNone "sensors/temperature/t1"
    "sensors" "temperature" "t1" [] [("value", .jnum 20), ("anomaly", .jbool true)]
    (.jnum 20) 0 20 emptyIngest rfl rfl rfl rfl

/-- Claim C5: a message whose payload is not valid JSON, or whose decoded
payload lacks the required `value` field, is dropped atomically: the
latest-value cache, the stored history and the broadcast list are all
unchanged, and the handler returns normally so processing continues. -/
theorem decode_failure_drops_reading (env : PyEnv) (topic : String)
    (fields : List (String × JVal)) (s : IngestState) :
    handleSensorData env topic .badJson s = s ∧
      (alistGet? fields "value" = none →
        handleSensorData env topic (.obj fields) s = s) := by
  constructor
  · unfold handleSensorData handleSensorDataExc
    rcases topicParts topic with _ | ⟨a, _ | ⟨b, _ | ⟨c, r⟩⟩⟩ <;> simp
  · intro hv
    unfold handleSensorData handleSensorDataExc
    rcases topicParts topic with _ | ⟨a, _ | ⟨b, _ | ⟨c, r⟩⟩⟩ <;> simp [hv]

/-- Witness for `decode_failure_drops_reading`: a decoded payload with no
`value` field leaves the empty ingestion state untouched. -/
theorem decode_failure_drops_reading_witness :
    handleSensorData envNone "sensors/temperature/t1"
      (.obj [("unit", .jstr "celsius")]) emptyIngest = emptyIngest :=
  (decode_failure_drops_reading envNone "sensors/temperature/t1"
    [("unit", .jstr "celsius")] emptyIngest).2 rfl

/-- Claim C10: for an accepted message the latest-value cache entry is
keyed by the sensor type and id parsed from the topic path, while the
stored reading's `sensor_id` comes from the payload when present; two
payloads on the same topic therefore overwrite the same cache entry, the
second reading replacing the first. -/
theorem cache_key_from_topic (env : PyEnv) (topic t0 t1 t2 : String)
    (rest : List String) (f1 f2 : List (String × JVal)) (v1 v2 : JVal)
    (ts1 ts2 q1 q2 : ℚ) (s : IngestState)
    (hparts : topicParts topic = t0 :: t1 :: t2 :: rest)
    (hv1 : alistGet? f1 "value" = some v1)
    (hts1 : parseTimestamp env f1 = .ok ts1)
    (hq1 : pyFloat env v1 = .ok q1)
    (hv2 : alistGet? f2 "value" = some v2)
    (hts2 : parseTimestamp env f2 = .ok ts2)
    (hq2 : pyFloat env v2 = .ok q2) :
    (handleSensorData env topic (.obj f1) s).latest =
        alistPut s.latest (t1 ++ "_" ++ t2) (mkReadingData t1 t2 f1 ts1 q1) ∧
      alistGet? (handleSensorData env topic (.obj f2)
          (handleSensorData env topic (.obj f1) s)).latest (t1 ++ "_" ++ t2) =
        some (mkReadingData t1 t2 f2 ts2 q2) ∧
      (mkReadingData t1 t2 f2 ts2 q2).sensor_id = jgetD f2 "sensor_id" (.jstr t2) := by
  refine ⟨?_, ?_, rfl⟩
  · rw [handleSensorData_accepts env topic t0 t1 t2 rest f1 v1 ts1 q1 s hparts hv1 hts1 hq1]
  · rw [handleSensorData_accepts env topic t0 t1 t2 rest f2 v2 ts2 q2 _ hparts hv2 hts2 hq2]
    exact alistGet?_alistPut_self _ _ _

/-- Witness for `cache_key_from_topic`: two payloads carrying different
payload-level `sensor_id` values arrive on the same topic; the second one
overwrites the first one's cache entry under the topic-derived key. -/
theorem cache_key_from_topic_witness :
    (handleSensorData envNone "sensors/temperature/t1"
        (.obj [("value", .jnum 1), ("sensor_id", .jstr "a")]) emptyIngest).latest =
      alistPut emptyIngest.latest ("temperature" ++ "_" ++ "t1")
        (mkReadingData "temperature" "t1"
          [("value", .jnum 1), ("sensor_id", .jstr "a")] 0 1) ∧
    alistGet? (handleSensorData envNone "sensors/temperature/t1"
        (.obj [("value", .jnum 2), ("sensor_id", .jstr "b")])
        (handleSensorData envNone "sensors/temperature/t1"
          (.obj [("value", .jnum 1), ("sensor_id", .jstr "a")]) emptyIngest)).latest
      ("temperature" ++ "_" ++ "t1") =
      some (mkReadingData "temperature" "t1"
        [("value", .jnum 2), ("sensor_id", .jstr "b")] 0 2) ∧
    (mkReadingData "temperature" "t1"
      [("value", .jnum 2), ("sensor_id", .jstr "b")] 0 2).sensor_id =
      jgetD [("value", .jnum 2), ("sensor_id", .jstr "b")] "sensor_id" (.jstr "t1") :=
  cache_key_from_topic envNone "sensors/temperature/t1" "sensors" "temperature" "t1"
    [] [("value", .jnum 1), ("sensor_id", .jstr "a")]
    [("value", .jnum 2), ("sensor_id", .jstr "b")] (.jnum 1) (.jnum 2) 0 0 1 2
    emptyIngest rfl rfl rfl rfl rfl rfl rfl

/-- Claim C6 counterexample: a payload carrying the required `value` field
and a truthy non-string `ts` (here the number 123) is not accepted with a
substituted ingestion time — the `AttributeError` from `.endswith` escapes
the `ValueError`-only handler and the whole reading is dropped. -/
theorem nonstring_ts_drops_reading :
    onMessage envNone "sensors/temperature/t1"
      (.utf8 (.obj [("value", .jnum 1), ("ts", .jnum 123)])) emptyIngest =
      emptyIngest := rfl

/-- Claim C6 (amended): for an accepted payload the timestamp is the
parsed instant when `ts` is a truthy string that `fromisoformat` parses
(after stripping a trailing 'Z'); an absent, falsy, or unparsable-string
`ts` makes ingestion time substitute and the reading is still accepted;
but a truthy non-string `ts` raises and the reading is dropped. -/
theorem timestamp_fallback_amended (env : PyEnv) (fields : List (String × JVal))
    (topic : String) (s : IngestState) :
    ((tsField fields).truthy = false → parseTimestamp env fields = .ok env.now) ∧
      (∀ str t, tsField fields = .jstr str → env.fromIso (stripZ str) = some t →
        (tsField fields).truthy = true → parseTimestamp env fields = .ok t) ∧
      (∀ str, tsField fields = .jstr str → env.fromIso (stripZ str) = none →
        parseTimestamp env fields = .ok env.now) ∧
      (∀ jv, tsField fields = jv → jv.truthy = true → (∀ str, jv ≠ .jstr str) →
        parseTimestamp env fields = .error .attributeErr) ∧
      (∀ e, parseTimestamp env fields = .error e →
        handleSensorData env topic (.obj fields) s = s) ∧
      (∀ v ts q t0 t1 t2 rest, topicParts topic = t0 :: t1 :: t2 :: rest →
        alistGet? fields "value" = some v → parseTimestamp env fields = .ok ts →
        pyFloat env v = .ok q →
        (handleSensorData env topic (.obj fields) s).stored =
            s.stored ++ [mkReadingData t1 t2 fields ts q] ∧
          (mkReadingData t1 t2 fields ts q).timestamp = ts) := by
  refine ⟨?_, ?_, ?_, ?_, ?_, ?_⟩
  · intro hf
    unfold parseTimestamp
    simp [hf]
  · intro str t hstr hiso htr
    unfold parseTimestamp
    rw [hstr] at htr ⊢
    simp [htr, hiso]
  · intro str hstr hiso
    unfold parseTimestamp
    rw [hstr]
    by_cases htr : (JVal.jstr str).truthy = true
    · simp [htr, hiso]
    · simp [htr]
  · intro jv hjv htr hnostr
    unfold parseTimestamp
    rw [hjv]
    cases jv with
    | jstr str => exact absurd rfl (hnostr str)
    | jnum q => simp [htr]
    | jbool b => simp [htr]
    | jnull => simp [JVal.truthy] at htr
  · intro e hts
    rcases h : alistGet? fields "value" with _ | v
    · exact (decode_failure_drops_reading env topic fields s).2 h
    · exact handleSensorData_drop_of_error env topic fields s v e h hts
  · intro v ts q t0 t1 t2 rest hparts hv hts hq
    refine ⟨?_, rfl⟩
    rw [handleSensorData_accepts env topic t0 t1 t2 rest fields v ts q s hparts hv hts hq]

/-- Witness for `timestamp_fallback_amended`: a payload whose `ts` is the
ISO string "2024Z" is accepted with the parsed instant 7 under `envIso`. -/
theorem timestamp_fallback_amended_witness :
    (handleSensorData envIso "sensors/temperature/t9"
        (.obj [("value", .jnum 1), ("ts", .jstr "2024Z")]) emptyIngest).stored =
      emptyIngest.stored ++
        [mkReadingData "temperature" "t9"
          [("value", .jnum 1), ("ts", .jstr "2024Z")] 7 1] :=
  ((timestamp_fallback_amended envIso [("value", .jnum 1), ("ts", .jstr "2024Z")]
      "sensors/temperature/t9" emptyIngest).2.2.2.2.2
    (.jnum 1) 7 1 "sensors" "temperature" "t9" [] rfl rfl rfl rfl).1

/-- Claim C7: when the send to subscriber `k` fails and every other
registered subscriber's send succeeds, `broadcast` still attempts delivery
to every registered connection (in particular all the others), afterward
`k` is no longer registered, and the non-failing subscribers remain
registered. -/
theorem broadcast_failure_isolation {α : Type} [DecidableEq α] (l : List α)
    (k : α) (sendOk : α → Bool) (hnd : l.Nodup) (hk : k ∈ l)
    (hfail : sendOk k = false) (hok : ∀ c ∈ l, c ≠ k → sendOk c = true) :
    (cmBroadcast sendOk l).1 = l ∧ k ∉ (cmBroadcast sendOk l).2 ∧
      ∀ c ∈ l, c ≠ k → c ∈ (cmBroadcast sendOk l).2 := by
  have hfilter : l.filter (fun c => !(sendOk c)) = [k] :=
    filter_eq_singleton l k _ hnd hk (by simp [hfail])
      fun c hc hck => by simp [hok c hc hck]
  have hsnd : (cmBroadcast sendOk l).2 = l.erase k := by
    unfold cmBroadcast
    simp only [hfilter, List.foldl_cons, List.foldl_nil]
    unfold cmDisconnect
    rw [if_pos hk]
  refine ⟨rfl, ?_, ?_⟩
  · rw [hsnd]
    intro hmem
    exact absurd ((hnd.mem_erase_iff).mp hmem).1 (by simp)
  · intro c hc hck
    rw [hsnd]
    exact (List.mem_erase_of_ne hck).mpr hc

/-- Witness for `broadcast_failure_isolation`: three subscribers, the
middle one failing. -/
theorem broadcast_failure_isolation_witness :
    (cmBroadcast (fun c => decide (c ≠ 2)) [1, 2, 3]).1 = [1, 2, 3] ∧
      2 ∉ (cmBroadcast (fun c => decide (c ≠ 2)) [1, 2, 3]).2 ∧
      ∀ c ∈ [1, 2, 3], c ≠ 2 → c ∈ (cmBroadcast (fun c => decide (c ≠ 2)) [1, 2, 3]).2 :=
  broadcast_failure_isolation [1, 2, 3] 2 (fun c => decide (c ≠ 2))
    (by decide) (by decide) (by decide) (by decide)

/-- Claim C8: for every topic and raw payload the message-receipt handler
returns normally — when the unprotected pipeline succeeds, `_on_message`
returns its result, and when the unprotected pipeline raises any
exception, the catch layers contain it and the handler returns with the
state unchanged; nothing propagates into the transport callback. -/
theorem pipeline_exceptions_contained (env : PyEnv) (topic : String)
    (raw : RawPayload) (s : IngestState) :
    (∀ s', pipelineExc env topic raw s = .ok s' →
        onMessage env topic raw s = s') ∧
      ∀ e, pipelineExc env topic raw s = .error e →
        onMessage env topic raw s = s := by
  cases raw with
  | badUtf8 => exact ⟨fun s' h => (nomatch h), fun e _ => rfl⟩
  | utf8 p =>
      by_cases hs : strStartsWith topic "sensors/"
      · constructor
        · intro s' h
          rw [pipelineExc, if_pos hs] at h
          rw [onMessage, onMessageBody, if_pos hs]
          unfold handleSensorData
          rw [h]
        · intro e h
          rw [pipelineExc, if_pos hs] at h
          rw [onMessage, onMessageBody, if_pos hs]
          unfold handleSensorData
          rw [h]
      · by_cases hn : strStartsWith topic "nodered/"
        · constructor
          · intro s' h
            rw [pipelineExc, if_neg hs, if_pos hn] at h
            rw [onMessage, onMessageBody, if_neg hs, if_pos hn]
            cases h
            rfl
          · intro e h
            rw [pipelineExc, if_neg hs, if_pos hn] at h
            cases h
        · constructor
          · intro s' h
            rw [pipelineExc, if_neg hs, if_neg hn] at h
            rw [onMessage, onMessageBody, if_neg hs, if_neg hn]
            cases h
            rfl
          · intro e h
            rw [pipelineExc, if_neg hs, if_neg hn] at h
            cases h

/-- Witness for `pipeline_exceptions_contained`: a sensor-topic message
whose payload decodes to a JSON scalar makes the unprotected pipeline
raise `TypeError`; the handler returns with the state unchanged. -/
theorem pipeline_exceptions_contained_witness :
    onMessage envNone "sensors/temperature/t1" (.utf8 .nonObjScalar)
      emptyIngest = emptyIngest :=
  (pipeline_exceptions_contained envNone "sensors/temperature/t1"
    (.utf8 .nonObjScalar) emptyIngest).2 .typeErr rfl

/-- Claim C9 counterexample: a well-formed JSON client message with the
unrecognized type "subscribe" is answered with no reply at all, not with
an `error` event. -/
theorem unknown_ws_type_gets_no_reply :
    handleClientText (.obj [("type", .jstr "subscribe")]) = .replies [] := rfl

/-- Claim C9 (amended): a `ping` message is answered with `pong`; a text
frame that is not valid JSON is answered with an `error` event; a
well-formed JSON object with an unrecognized type is silently ignored (no
reply, no `error` event); none of these closes the connection. -/
theorem ws_protocol_amended (fields : List (String × JVal)) :
    handleClientText .badJson = .replies ["error"] ∧
      (alistGet? fields "type" = some (.jstr "ping") →
        handleClientText (.obj fields) = .replies ["pong"]) ∧
      (alistGet? fields "type" ≠ some (.jstr "ping") →
        alistGet? fields "type" ≠ some (.jstr "get_latest") →
        handleClientText (.obj fields) = .replies []) := by
  refine ⟨rfl, ?_, ?_⟩
  · intro h
    unfold handleClientText
    simp [h]
  · intro h1 h2
    unfold handleClientText
    simp [h1, h2]

/-- Witness for `ws_protocol_amended`: a concrete `ping` message yields a
`pong` reply. -/
theorem ws_protocol_amended_witness :
    handleClientText (.obj [("type", .jstr "ping")]) = .replies ["pong"] :=
  (ws_protocol_amended [("type", .jstr "ping")]).2.1 rfl

end IoT
